import Mathlib

/-!
Shallow embedding of the forecast aggregation and event-detection core of
`src/app.py` (a Streamlit weather dashboard over the OpenWeatherMap API),
together with theorems settling the specification claims about it.

Conventions of the embedding:
* Python floats are modelled as rationals (`ℚ`); all arithmetic used by the
  program (max, `* 3.6`, `* 100`, comparisons) is exact on the inputs at stake.
* JSON dictionaries are modelled as structures whose fields are `Option`-typed
  exactly where the source accesses them through `.get` with a default or
  guards them with `in`; a direct subscript access (`item['dt_txt']`) on an
  absent field is a raised `KeyError`, modelled in the `Except String` monad.
* Two-level accesses that the source always collapses (`item['rain']['3h']`,
  `item['main']['temp']`, `item['wind']['speed']`) are modelled as a single
  optional field: the source treats "outer key absent" and "inner key absent"
  identically everywhere it touches them.
* `datetime.now()` is an explicit integer parameter `ahora` (seconds);
  `datetime.strptime(s, pct-Y-m-d H:M:S)` is `strptimeDtTxt`, which converts a
  well-formed timestamp string to seconds via the standard civil-calendar day
  count and returns `none` (a raised `ValueError` at use sites) otherwise.
* The network is an oracle: a function from attempt number to the outcome of
  one HTTP attempt (for the retry loops), or from city name to a fetch result
  (for the per-city aggregation loop).
-/

deriving instance DecidableEq for Except

namespace App

/-- Lowercasing of a string, character by character, modelling Python `str.lower`
on the ASCII data the program matches against. -/
def strLower (s : String) : String := String.mk (s.data.map Char.toLower)

/-- Prefix test on character lists. -/
def listPref : List Char → List Char → Bool
  | [], _ => true
  | _ :: _, [] => false
  | a :: as, b :: bs => a == b && listPref as bs

/-- Infix (substring) test on character lists. -/
def listInfix (needle : List Char) : List Char → Bool
  | [] => listPref needle []
  | b :: bs => listPref needle (b :: bs) || listInfix needle bs

/-- Python `needle in hay` on strings: substring containment. -/
def strContains (hay needle : String) : Bool := listInfix needle.data hay.data

/-- Split a character list on a separator character, keeping empty groups,
as Python `str.split(sep)` does. -/
def splitOnChar (sep : Char) : List Char → List (List Char)
  | [] => [[]]
  | c :: cs =>
    match splitOnChar sep cs with
    | [] => [[c]]
    | g :: gs => if c = sep then [] :: g :: gs else (c :: g) :: gs

/-- Parse a non-empty all-digit character list to a natural number. -/
def parseNat? (s : List Char) : Option Nat :=
  if s ≠ [] ∧ s.all Char.isDigit then
    some (s.foldl (fun n c => n * 10 + (c.toNat - 48)) 0)
  else none

/-- Days since 1970-01-01 of a civil date (standard days-from-civil
computation on the proleptic Gregorian calendar). -/
def daysFromCivil (y m d : Int) : Int :=
  let y := if m ≤ 2 then y - 1 else y
  let era := (if 0 ≤ y then y else y - 399) / 400
  let yoe := y - era * 400
  let mp := (m + 9) % 12
  let doy := (153 * mp + 2) / 5 + d - 1
  let doe := yoe * 365 + yoe / 4 - yoe / 100 + doy
  era * 146097 + doe - 719468

/-- Model of `datetime.strptime(s, pct-Y-m-d pct-H:M:S)` followed by
`total_seconds`-style linearisation: a timestamp string of the exact shape
`YYYY-MM-DD HH:MM:SS` is mapped to seconds since the epoch; any other string
is a parse failure (`ValueError` in the source). -/
def strptimeDtTxt (s : String) : Option Int :=
  match splitOnChar ' ' s.data with
  | [date, time] =>
    match splitOnChar '-' date, splitOnChar ':' time with
    | [ys, ms, ds], [hs, mins, ss] =>
      match parseNat? ys, parseNat? ms, parseNat? ds,
            parseNat? hs, parseNat? mins, parseNat? ss with
      | some y, some mo, some d, some h, some mi, some sec =>
        if 1 ≤ mo ∧ mo ≤ 12 ∧ 1 ≤ d ∧ d ≤ 31 ∧ h ≤ 23 ∧ mi ≤ 59 ∧ sec ≤ 61 then
          some (daysFromCivil (Int.ofNat y) (Int.ofNat mo) (Int.ofNat d) * 86400
                + Int.ofNat h * 3600 + Int.ofNat mi * 60 + Int.ofNat sec)
        else none
      | _, _, _, _, _, _ => none
    | _, _ => none
  | _ => none

/-- One entry of a snapshot's `weather` array: the fields the program reads,
each optional because the source reads them with `.get(..., '')` in the
analyzer (and with direct subscripts in the horizon selector). -/
structure WeatherEntry where
  main : Option String
  description : Option String
  icon : Option String
deriving Repr, DecidableEq

/-- One 3-hour forecast snapshot (`item` of `forecast_data['list']`), with the
fields the program accesses. `main_temp`/`main_humidity` collapse
`item['main']['temp']`/`['humidity']`, `wind_speed` collapses
`item['wind']['speed']`, and `rain_3h`/`snow_3h` collapse
`item['rain']['3h']`/`item['snow']['3h']` (see module comment). -/
structure SnapItem where
  dt_txt : Option String
  weather : Option (List WeatherEntry)
  main_temp : Option ℚ
  main_humidity : Option ℚ
  wind_speed : Option ℚ
  pop : Option ℚ
  rain_3h : Option ℚ
  snow_3h : Option ℚ
deriving Repr, DecidableEq

/-- The forecast payload: `list` is optional, modelling `'list' not in
forecast_data`. The whole payload is passed around as `Option ForecastData`,
`none` modelling Python `None` (and any other falsy value). -/
structure ForecastData where
  list : Option (List SnapItem)
deriving Repr, DecidableEq

/-- The `eventos` dictionary built by `analizar_eventos_meteorologicos`. -/
structure Eventos where
  lluvia : Bool
  tormenta : Bool
  granizo : Bool
  nieve : Bool
  probabilidad_lluvia_max : ℚ
  probabilidad_nieve_max : ℚ
  intensidad_lluvia_max : ℚ
  horas_lluvia : List String
  horas_tormenta : List String
  horas_nieve : List String
deriving Repr, DecidableEq

/-- The initial `eventos` dictionary (all flags false, maxima 0, lists empty). -/
def eventosDefault : Eventos :=
  { lluvia := false, tormenta := false, granizo := false, nieve := false
    probabilidad_lluvia_max := 0, probabilidad_nieve_max := 0
    intensidad_lluvia_max := 0
    horas_lluvia := [], horas_tormenta := [], horas_nieve := [] }

/-- Model of `item.get('weather', [{}])[0]`: an absent `weather` key defaults
to a one-element list holding an empty dict (all fields absent); a present but
empty list raises `IndexError` on the `[0]` access. -/
def weatherHead (item : SnapItem) : Except String WeatherEntry :=
  match item.weather with
  | none => .ok { main := none, description := none, icon := none }
  | some [] => .error "IndexError: weather list index out of range"
  | some (w :: _) => .ok w

/-- Rain-detection test of the analyzer (line 248 of the source):
`'rain' in weather_main or 'lluvia' in weather_desc or 'drizzle' in weather_main`. -/
def condLluvia (wm wd : String) : Bool :=
  strContains wm "rain" || strContains wd "lluvia" || strContains wm "drizzle"

/-- Storm-detection test: `'thunderstorm' in weather_main or 'tormenta' in weather_desc`. -/
def condTormenta (wm wd : String) : Bool :=
  strContains wm "thunderstorm" || strContains wd "tormenta"

/-- Hail-detection test: `'hail' in weather_desc or 'granizo' in weather_desc`. -/
def condGranizo (wd : String) : Bool :=
  strContains wd "hail" || strContains wd "granizo"

/-- Snow-detection test: `'snow' in weather_main or 'nieve' in weather_desc`. -/
def condNieve (wm wd : String) : Bool :=
  strContains wm "snow" || strContains wd "nieve"

/-- Rain test used in the probability-of-precipitation update (line 272):
`'rain' in weather_main or 'lluvia' in weather_desc` — note the absence of
the `'drizzle'` disjunct that the rain-detection test at line 248 has. -/
def condLluviaPop (wm wd : String) : Bool :=
  strContains wm "rain" || strContains wd "lluvia"

/-- Python `max` on two numbers: the second argument exactly when it is
strictly greater (written with the executable `Rat.blt`, which is what `<` on
`ℚ` unfolds to). -/
def ratMax (a b : ℚ) : ℚ := if Rat.blt a b then b else a

/-- Rain-detection block of the analyzer loop body (lines 248-253). -/
def updLluvia (item : SnapItem) (wm wd : String) (ev : Eventos) : Eventos :=
  if condLluvia wm wd then
    { ev with lluvia := true
              horas_lluvia := ev.horas_lluvia ++ [item.dt_txt.getD ""]
              intensidad_lluvia_max :=
                match item.rain_3h with
                | some v => ratMax ev.intensidad_lluvia_max v
                | none => ev.intensidad_lluvia_max }
  else ev

/-- Storm-detection block (lines 256-258). -/
def updTormenta (item : SnapItem) (wm wd : String) (ev : Eventos) : Eventos :=
  if condTormenta wm wd then
    { ev with tormenta := true
              horas_tormenta := ev.horas_tormenta ++ [item.dt_txt.getD ""] }
  else ev

/-- Hail-detection block (lines 261-262): flag only, no timestamp list. -/
def updGranizo (wd : String) (ev : Eventos) : Eventos :=
  if condGranizo wd then { ev with granizo := true } else ev

/-- Snow-detection block (lines 265-267). -/
def updNieve (item : SnapItem) (wm wd : String) (ev : Eventos) : Eventos :=
  if condNieve wm wd then
    { ev with nieve := true
              horas_nieve := ev.horas_nieve ++ [item.dt_txt.getD ""] }
  else ev

/-- Probability-of-precipitation block (lines 270-275): guarded by
`'pop' in item`; the rain update uses `condLluviaPop`, the snow update reuses
`condNieve`, and both may fire on the same snapshot. -/
def updPop (item : SnapItem) (wm wd : String) (ev : Eventos) : Eventos :=
  match item.pop with
  | some p =>
    let pop := p * 100
    let ev :=
      if condLluviaPop wm wd then
        { ev with probabilidad_lluvia_max := ratMax ev.probabilidad_lluvia_max pop }
      else ev
    if condNieve wm wd then
      { ev with probabilidad_nieve_max := ratMax ev.probabilidad_nieve_max pop }
    else ev
  | none => ev

/-- The five detection blocks of one analyzer iteration, in source order,
over already-extracted `weather_main`/`weather_desc` strings. -/
def analizarItem (ev : Eventos) (item : SnapItem) (wm wd : String) : Eventos :=
  updPop item wm wd (updNieve item wm wd (updGranizo wd
    (updTormenta item wm wd (updLluvia item wm wd ev))))

/-- One iteration of the analyzer's `for item in forecast_data['list']` loop
(lines 242-275): extract `weather_main`/`weather_desc` (lowercased, with `''`
defaults), then apply the five detection blocks in source order. -/
def analizarStep (ev : Eventos) (item : SnapItem) : Except String Eventos :=
  match weatherHead item with
  | .error e => .error e
  | .ok w =>
    .ok (analizarItem ev item (strLower (w.main.getD "")) (strLower (w.description.getD "")))

/-- The analyzer loop over the snapshot list, threading the `eventos` dict. -/
def analizarLoop : Eventos → List SnapItem → Except String Eventos
  | ev, [] => .ok ev
  | ev, item :: rest =>
    match analizarStep ev item with
    | .error e => .error e
    | .ok ev2 => analizarLoop ev2 rest

/-- Model of `analizar_eventos_meteorologicos(forecast_data)` (lines 224-277):
returns the default `eventos` when `forecast_data` is falsy or has no `'list'`
key, else folds the detection loop over the snapshots. -/
def analizar_eventos_meteorologicos (fd : Option ForecastData) : Except String Eventos :=
  match fd with
  | none => .ok eventosDefault
  | some f =>
    match f.list with
    | none => .ok eventosDefault
    | some items => analizarLoop eventosDefault items

/-- One value of the `pronosticos` dictionary built by
`obtener_pronosticos_por_horas` (lines 205-217). `main` and `description`
hold the lowercased group and description. -/
structure HorizonEntry where
  fecha : String
  temperatura : ℚ
  descripcion : String
  icono : String
  humedad : ℚ
  viento : ℚ
  probabilidad_lluvia : ℚ
  lluvia_3h : ℚ
  nieve_3h : ℚ
  main : String
  description : String
deriving Repr, DecidableEq

/-- Timestamp of a snapshot as read in the horizon selector's inner loop
(line 197): a direct `item['dt_txt']` subscript (KeyError when absent)
followed by `strptime` (ValueError when malformed). -/
def snapTime (item : SnapItem) : Except String Int :=
  match item.dt_txt with
  | none => .error "KeyError: dt_txt"
  | some s =>
    match strptimeDtTxt s with
    | none => .error "ValueError: time data does not match format"
    | some t => .ok t

/-- The inner scan of the horizon selector (lines 193-202): walk the snapshot
list keeping the entry with the strictly smallest absolute difference (in
seconds) to the target instant; `none` models the initial
`pronostico_cercano = None` / `diferencia_minima = inf` state, and a tie keeps
the earlier snapshot because the comparison is strict. -/
def nearestLoop (target : Int) :
    List SnapItem → Option (SnapItem × Nat) → Except String (Option (SnapItem × Nat))
  | [], best => .ok best
  | item :: rest, best =>
    match snapTime item with
    | .error e => .error e
    | .ok t =>
      let d := (t - target).natAbs
      let best2 :=
        match best with
        | none => some (item, d)
        | some (b, dm) => if d < dm then some (item, d) else some (b, dm)
      nearestLoop target rest best2

/-- Construction of one `pronosticos` entry from the selected snapshot
(lines 205-216). Every field the source reads with a direct subscript is a
potential KeyError/IndexError; `pop`, `rain.3h` and `snow.3h` are read with
defaulting `.get` calls. -/
def mkEntry (item : SnapItem) : Except String HorizonEntry := do
  let fecha ← match item.dt_txt with
    | some s => Except.ok s
    | none => Except.error "KeyError: dt_txt"
  let temp ← match item.main_temp with
    | some v => Except.ok v
    | none => Except.error "KeyError: temp"
  let w ← match item.weather with
    | none => Except.error "KeyError: weather"
    | some [] => Except.error "IndexError: weather list index out of range"
    | some (x :: _) => Except.ok x
  let desc ← match w.description with
    | some s => Except.ok s
    | none => Except.error "KeyError: description"
  let icon ← match w.icon with
    | some s => Except.ok s
    | none => Except.error "KeyError: icon"
  let hum ← match item.main_humidity with
    | some v => Except.ok v
    | none => Except.error "KeyError: humidity"
  let wind ← match item.wind_speed with
    | some v => Except.ok v
    | none => Except.error "KeyError: speed"
  let mainStr ← match w.main with
    | some s => Except.ok s
    | none => Except.error "KeyError: main"
  .ok { fecha := fecha, temperatura := temp, descripcion := desc, icono := icon
        humedad := hum, viento := wind * (36 / 10)
        probabilidad_lluvia := item.pop.getD 0 * 100
        lluvia_3h := item.rain_3h.getD 0, nieve_3h := item.snow_3h.getD 0
        main := strLower mainStr, description := strLower desc }

/-- The outer loop of the horizon selector over the requested hour offsets
(lines 190-217): for each offset compute the target instant, scan for the
nearest snapshot, and (when the list was non-empty, so one was found) append
the keyed entry to the result; the Python dict is modelled as an association
list in insertion order. -/
def horasLoop (ahora : Int) (items : List SnapItem) :
    List Int → List (String × HorizonEntry) → Except String (List (String × HorizonEntry))
  | [], acc => .ok acc
  | h :: rest, acc =>
    match nearestLoop (ahora + h * 3600) items none with
    | .error e => .error e
    | .ok none => horasLoop ahora items rest acc
    | .ok (some (item, _)) =>
      match mkEntry item with
      | .error e => .error e
      | .ok entry => horasLoop ahora items rest (acc ++ [(toString h ++ "h", entry)])

/-- Model of `obtener_pronosticos_por_horas(forecast_data, horas)`
(lines 181-219): empty mapping when `forecast_data` is falsy or lacks
`'list'`; otherwise run the offset loop. `ahora` stands for `datetime.now()`
in seconds. The default `horas` of the source is `[6, 12, 18, 24, 36, 48]`. -/
def obtener_pronosticos_por_horas (fd : Option ForecastData) (ahora : Int)
    (horas : List Int) : Except String (List (String × HorizonEntry)) :=
  match fd with
  | none => .ok []
  | some f =>
    match f.list with
    | none => .ok []
    | some items => horasLoop ahora items horas []

/-- Outcome of one HTTP attempt, as distinguished by the retry loops of
`obtener_clima`/`obtener_pronostico`: a 200 response with its JSON payload, a
non-200 response with its status code, a `requests.exceptions.Timeout`, or any
other `requests.exceptions.RequestException` (connection errors included) with
its message. The SSL fallback retry inside a single attempt (lines 108-111) is
invisible at this granularity: the oracle reports the attempt's final outcome. -/
inductive FetchOutcome (α : Type) where
  | ok (d : α)
  | status (code : Nat)
  | timeout
  | connError (msg : String)

/-- Result of a fetch call: the `(data, error)` pair the Python function
returns, plus the number of HTTP attempts that were issued (observable
behavior the retry claims are about). -/
structure FetchResult (α : Type) where
  data : Option α
  error : Option String
  attempts : Nat
deriving Repr

/-- The shared retry loop body of `obtener_clima` (lines 106-133) and
`obtener_pronostico` (lines 149-176), which are textually identical in the
source. `intento` is the 0-based attempt index, the second `Nat` the remaining
loop iterations; `oracle i` is the outcome of attempt `i`. The error string
for a 404 wraps the city name (the source puts it in single quotes, elided
here). Falling out of the loop yields the trailing
`"Error después de múltiples intentos"` return (line 133). -/
def reintentosLoop {α : Type} (oracle : Nat → FetchOutcome α) (ciudad : String)
    (maxR : Nat) : Nat → Nat → FetchResult α
  | intento, 0 => ⟨none, some "Error después de múltiples intentos", intento⟩
  | intento, rem + 1 =>
    match oracle intento with
    | .ok d => ⟨some d, none, intento + 1⟩
    | .status code =>
      if code = 401 then ⟨none, some "API Key inválida", intento + 1⟩
      else if code = 404 then
        ⟨none, some ("Ciudad " ++ ciudad ++ " no encontrada"), intento + 1⟩
      else if code = 429 then
        ⟨none, some "Límite de solicitudes excedido", intento + 1⟩
      else if intento < maxR - 1 then
        reintentosLoop oracle ciudad maxR (intento + 1) rem
      else ⟨none, some ("Error " ++ toString code), intento + 1⟩
    | .timeout =>
      if intento < maxR - 1 then reintentosLoop oracle ciudad maxR (intento + 1) rem
      else ⟨none, some "Timeout en la solicitud", intento + 1⟩
    | .connError msg => ⟨none, some ("Error de conexión: " ++ msg), intento + 1⟩

/-- The current-conditions payload; of its many display fields only the
identity-bearing `name` is modelled, since the claims about the aggregation
concern which city each record belongs to, not the projected columns. -/
structure CurrentData where
  name : String
deriving Repr, DecidableEq

/-- Model of `obtener_clima(ciudad, api_key, max_reintentos)` (lines 96-133),
with the network abstracted as an attempt oracle. -/
def obtener_clima (oracle : Nat → FetchOutcome CurrentData) (ciudad : String)
    (max_reintentos : Nat) : FetchResult CurrentData :=
  reintentosLoop oracle ciudad max_reintentos 0 max_reintentos

/-- Model of `obtener_pronostico(ciudad, api_key, max_reintentos)`
(lines 138-176), whose retry logic is identical to `obtener_clima`. -/
def obtener_pronostico (oracle : Nat → FetchOutcome ForecastData) (ciudad : String)
    (max_reintentos : Nat) : FetchResult ForecastData :=
  reintentosLoop oracle ciudad max_reintentos 0 max_reintentos

/-- The three accumulators of the per-city fetch loop (lines 336-364). -/
structure CicloResult where
  weather_data : List CurrentData
  forecast_data_list : List (Option ForecastData)
  errores : List (String × String)
deriving Repr, DecidableEq

/-- The fetch loop over the configured cities (lines 342-364): on a
current-conditions success the data is appended to `weather_data` and the
forecast (or `None` on forecast failure) to `forecast_data_list`; on a
current-conditions failure `(ciudad, error)` is appended to `errores` and
`None` to `forecast_data_list`. Note `weather_data` is indexed by success
order while `forecast_data_list` is indexed by city-list order. -/
def fetchLoop (climaNet : String → Nat → FetchOutcome CurrentData)
    (pronNet : String → Nat → FetchOutcome ForecastData) :
    List String → CicloResult
  | [] => ⟨[], [], []⟩
  | ciudad :: rest =>
    let r := fetchLoop climaNet pronNet rest
    let res := obtener_clima (climaNet ciudad) ciudad 3
    match res.data with
    | some data =>
      let forecast := (obtener_pronostico (pronNet ciudad) ciudad 3).data
      ⟨data :: r.weather_data, forecast :: r.forecast_data_list, r.errores⟩
    | none =>
      ⟨r.weather_data, none :: r.forecast_data_list,
        (ciudad, res.error.getD "") :: r.errores⟩

/-- The per-row event analysis of the record-building loop (lines 438-456):
for the `i`-th entry of `weather_data`, run the analyzer on
`forecast_data_list[i]` when that index exists and is non-`None`, else use the
all-false/0 defaults. -/
def eventosPorCiudad : List CurrentData → List (Option ForecastData) →
    Except String (List Eventos)
  | [], _ => .ok []
  | _ :: wd, [] =>
    match eventosPorCiudad wd [] with
    | .error e => .error e
    | .ok rest => .ok (eventosDefault :: rest)
  | _ :: wd, f :: fl =>
    match (match f with
           | some fdata => analizar_eventos_meteorologicos (some fdata)
           | none => .ok eventosDefault) with
    | .error e => .error e
    | .ok ev =>
      match eventosPorCiudad wd fl with
      | .error e => .error e
      | .ok rest => .ok (ev :: rest)

/-- The per-city horizon maps (lines 414-420): one entry per
`forecast_data_list` slot, the empty map for a `None` slot. -/
def pronosticosPorHorasList (ahora : Int) : List (Option ForecastData) →
    Except String (List (List (String × HorizonEntry)))
  | [] => .ok []
  | f :: rest =>
    match (match f with
           | some fdata => obtener_pronosticos_por_horas (some fdata) ahora [6, 12, 18, 24, 36, 48]
           | none => .ok []) with
    | .error e => .error e
    | .ok p =>
      match pronosticosPorHorasList ahora rest with
      | .error e => .error e
      | .ok ps => .ok (p :: ps)

/-- Pairing of the emitted rows with their horizon maps as displayed
(lines 782-784): row `idx` of the table gets `pronosticos_por_horas[idx]` when
that index exists, else the empty map. -/
def zipRecords : List CurrentData → List Eventos →
    List (List (String × HorizonEntry)) →
    List (CurrentData × Eventos × List (String × HorizonEntry))
  | [], _, _ => []
  | _ :: _, [], _ => []
  | d :: wd, e :: evs, [] => (d, e, []) :: zipRecords wd evs []
  | d :: wd, e :: evs, p :: ps => (d, e, p) :: zipRecords wd evs ps

/-- The whole aggregation cycle: fetch every configured city, then build the
emitted record set, one `(current conditions, eventos, horizon map)` triple
per city that had a current-conditions success, in emission order. -/
def cityRecords (ciudades : List String)
    (climaNet : String → Nat → FetchOutcome CurrentData)
    (pronNet : String → Nat → FetchOutcome ForecastData) (ahora : Int) :
    Except String (List (CurrentData × Eventos × List (String × HorizonEntry))) :=
  let r := fetchLoop climaNet pronNet ciudades
  match eventosPorCiudad r.weather_data r.forecast_data_list with
  | .error e => .error e
  | .ok evs =>
    match pronosticosPorHorasList ahora r.forecast_data_list with
    | .error e => .error e
    | .ok ps => .ok (zipRecords r.weather_data evs ps)

/-! Derived pure views of the two analysis functions, used to state and prove
the claims: each one is shown to agree with the `Except`-monadic embedding on
well-formed input. -/

/-- Well-formedness of a snapshot for the analyzer: its `weather` value, when
present, is a non-empty list (the only way `analizar_eventos_meteorologicos`
can raise is the `[0]` index on a present-but-empty `weather` list). -/
def weatherOk (item : SnapItem) : Bool :=
  match item.weather with
  | some [] => false
  | _ => true

/-- Total rendering of `item.get('weather', [{}])[0]` (empty-dict fallback on
the error case, reached only when `weatherOk` fails). -/
def wHeadA (item : SnapItem) : WeatherEntry :=
  match item.weather with
  | some (w :: _) => w
  | _ => { main := none, description := none, icon := none }

/-- The lowercased `weather_main` of a snapshot, as the analyzer extracts it. -/
def wmA (item : SnapItem) : String := strLower ((wHeadA item).main.getD "")

/-- The lowercased `weather_desc` of a snapshot, as the analyzer extracts it. -/
def wdA (item : SnapItem) : String := strLower ((wHeadA item).description.getD "")

/-- Total rendering of one analyzer iteration (defined for all snapshots;
agrees with `analizarStep` whenever `weatherOk` holds). -/
def stepPure (ev : Eventos) (item : SnapItem) : Eventos :=
  analizarItem ev item (wmA item) (wdA item)

/-- Total rendering of the analyzer loop. -/
def loopPure : Eventos → List SnapItem → Eventos
  | ev, [] => ev
  | ev, item :: rest => loopPure (stepPure ev item) rest

/-- A snapshot whose `dt_txt` is present and parses. -/
def wfTime (item : SnapItem) : Bool := (item.dt_txt.bind strptimeDtTxt).isSome

/-- The parsed timestamp of a snapshot, in seconds (0 when absent or
malformed; only used under `wfTime`). -/
def timeD (item : SnapItem) : Int := (item.dt_txt.bind strptimeDtTxt).getD 0

/-- Absolute difference, in seconds, between a snapshot's timestamp and a
target instant — the `diferencia` of the horizon selector's scan. -/
def diffTo (target : Int) (item : SnapItem) : Nat := (timeD item - target).natAbs

/-- First element of a list attaining the minimal value of `f`: a later
element is preferred only when strictly smaller, so ties keep the earliest. -/
def firstMinBy (f : SnapItem → Nat) : List SnapItem → Option SnapItem
  | [] => none
  | a :: rest =>
    match firstMinBy f rest with
    | none => some a
    | some b => if f b < f a then some b else some a

/-- Fallback snapshot for the (unreached) empty-list case of `pickNearest`. -/
def dummySnap : SnapItem :=
  { dt_txt := none, weather := none, main_temp := none, main_humidity := none
    wind_speed := none, pop := none, rain_3h := none, snow_3h := none }

/-- The snapshot the horizon selector's scan settles on for a target instant:
the first snapshot of the series attaining the minimal absolute difference. -/
def pickNearest (target : Int) (items : List SnapItem) : SnapItem :=
  (firstMinBy (diffTo target) items).getD dummySnap

/-- Total rendering of the `pronosticos` entry built from a selected snapshot
(agrees with `mkEntry` whenever `wfSnap` holds). -/
def entryD (item : SnapItem) : HorizonEntry :=
  { fecha := item.dt_txt.getD "", temperatura := item.main_temp.getD 0
    descripcion := (wHeadA item).description.getD ""
    icono := (wHeadA item).icon.getD ""
    humedad := item.main_humidity.getD 0
    viento := item.wind_speed.getD 0 * (36 / 10)
    probabilidad_lluvia := item.pop.getD 0 * 100
    lluvia_3h := item.rain_3h.getD 0, nieve_3h := item.snow_3h.getD 0
    main := strLower ((wHeadA item).main.getD "")
    description := strLower ((wHeadA item).description.getD "") }

/-- Well-formedness of a snapshot for the horizon selector: `dt_txt` present
and parseable, and every field the selector reads with a direct subscript
present (non-empty `weather` with `main`, `description` and `icon`;
`main.temp`, `main.humidity`, `wind.speed`). -/
def wfSnap (item : SnapItem) : Bool :=
  wfTime item && item.main_temp.isSome &&
  (match item.weather with
   | some (w :: _) => w.description.isSome && w.icon.isSome && w.main.isSome
   | _ => false) &&
  item.main_humidity.isSome && item.wind_speed.isSome

/-! Helper lemmas. -/

theorem blt_iff (a b : ℚ) : Rat.blt a b = true ↔ a < b := Iff.rfl

theorem ratMax_eq_max (a b : ℚ) : ratMax a b = max a b := by
  unfold ratMax
  rcases h : Rat.blt a b with _ | _
  · have hnl : ¬ a < b := by rw [← blt_iff, h]; simp
    simp [max_eq_left (le_of_not_lt hnl)]
  · have hl : a < b := (blt_iff a b).mp h
    simp [max_eq_right hl.le]

theorem le_ratMax_left (a b : ℚ) : a ≤ ratMax a b := by
  rw [ratMax_eq_max]; exact le_max_left a b

theorem le_ratMax_right (a b : ℚ) : b ≤ ratMax a b := by
  rw [ratMax_eq_max]; exact le_max_right a b

theorem ratMax_pos (a b : ℚ) (h : 0 < ratMax a b) : 0 < a ∨ 0 < b := by
  rw [ratMax_eq_max] at h; exact lt_max_iff.mp h

theorem updLluvia_eq (item : SnapItem) (wm wd : String) (ev : Eventos) :
    updLluvia item wm wd ev =
      { ev with lluvia := ev.lluvia || condLluvia wm wd
                horas_lluvia := ev.horas_lluvia ++
                  (if condLluvia wm wd then [item.dt_txt.getD ""] else [])
                intensidad_lluvia_max :=
                  if condLluvia wm wd then
                    match item.rain_3h with
                    | some v => ratMax ev.intensidad_lluvia_max v
                    | none => ev.intensidad_lluvia_max
                  else ev.intensidad_lluvia_max } := by
  unfold updLluvia
  cases h : condLluvia wm wd <;> simp

theorem updTormenta_eq (item : SnapItem) (wm wd : String) (ev : Eventos) :
    updTormenta item wm wd ev =
      { ev with tormenta := ev.tormenta || condTormenta wm wd
                horas_tormenta := ev.horas_tormenta ++
                  (if condTormenta wm wd then [item.dt_txt.getD ""] else []) } := by
  unfold updTormenta
  cases h : condTormenta wm wd <;> simp

theorem updGranizo_eq (wd : String) (ev : Eventos) :
    updGranizo wd ev = { ev with granizo := ev.granizo || condGranizo wd } := by
  unfold updGranizo
  cases h : condGranizo wd <;> simp

theorem updNieve_eq (item : SnapItem) (wm wd : String) (ev : Eventos) :
    updNieve item wm wd ev =
      { ev with nieve := ev.nieve || condNieve wm wd
                horas_nieve := ev.horas_nieve ++
                  (if condNieve wm wd then [item.dt_txt.getD ""] else []) } := by
  unfold updNieve
  cases h : condNieve wm wd <;> simp

theorem updPop_none (item : SnapItem) (wm wd : String) (ev : Eventos)
    (h : item.pop = none) : updPop item wm wd ev = ev := by
  unfold updPop; rw [h]

theorem updPop_some (item : SnapItem) (wm wd : String) (ev : Eventos) (p : ℚ)
    (h : item.pop = some p) :
    updPop item wm wd ev =
      { ev with probabilidad_lluvia_max :=
                  if condLluviaPop wm wd then
                    ratMax ev.probabilidad_lluvia_max (p * 100)
                  else ev.probabilidad_lluvia_max
                probabilidad_nieve_max :=
                  if condNieve wm wd then
                    ratMax ev.probabilidad_nieve_max (p * 100)
                  else ev.probabilidad_nieve_max } := by
  unfold updPop; rw [h]
  cases h1 : condLluviaPop wm wd <;> cases h2 : condNieve wm wd <;> simp

theorem analizarItem_eq (ev : Eventos) (item : SnapItem) (wm wd : String) :
    analizarItem ev item wm wd =
      { lluvia := ev.lluvia || condLluvia wm wd
        tormenta := ev.tormenta || condTormenta wm wd
        granizo := ev.granizo || condGranizo wd
        nieve := ev.nieve || condNieve wm wd
        probabilidad_lluvia_max :=
          match item.pop with
          | some p =>
            if condLluviaPop wm wd then
              ratMax ev.probabilidad_lluvia_max (p * 100)
            else ev.probabilidad_lluvia_max
          | none => ev.probabilidad_lluvia_max
        probabilidad_nieve_max :=
          match item.pop with
          | some p =>
            if condNieve wm wd then
              ratMax ev.probabilidad_nieve_max (p * 100)
            else ev.probabilidad_nieve_max
          | none => ev.probabilidad_nieve_max
        intensidad_lluvia_max :=
          if condLluvia wm wd then
            match item.rain_3h with
            | some v => ratMax ev.intensidad_lluvia_max v
            | none => ev.intensidad_lluvia_max
          else ev.intensidad_lluvia_max
        horas_lluvia := ev.horas_lluvia ++
          (if condLluvia wm wd then [item.dt_txt.getD ""] else [])
        horas_tormenta := ev.horas_tormenta ++
          (if condTormenta wm wd then [item.dt_txt.getD ""] else [])
        horas_nieve := ev.horas_nieve ++
          (if condNieve wm wd then [item.dt_txt.getD ""] else []) } := by
  unfold analizarItem
  rw [updLluvia_eq, updTormenta_eq, updGranizo_eq, updNieve_eq]
  rcases hp : item.pop with _ | p
  · rw [updPop_none _ _ _ _ hp]
  · rw [updPop_some _ _ _ _ p hp]

theorem weatherHead_ok (item : SnapItem) (h : weatherOk item = true) :
    weatherHead item = .ok (wHeadA item) := by
  unfold weatherOk at h
  unfold weatherHead wHeadA
  rcases hw : item.weather with _ | (_ | ⟨w, rest⟩) <;> simp [hw] at h ⊢

theorem analizarStep_ok (ev : Eventos) (item : SnapItem) (h : weatherOk item = true) :
    analizarStep ev item = .ok (stepPure ev item) := by
  unfold analizarStep stepPure wmA wdA
  rw [weatherHead_ok item h]

theorem analizarLoop_ok (xs : List SnapItem) :
    ∀ ev, (∀ x ∈ xs, weatherOk x = true) → analizarLoop ev xs = .ok (loopPure ev xs) := by
  induction xs with
  | nil => intro ev _; rfl
  | cons a rest ih =>
    intro ev h
    unfold analizarLoop loopPure
    rw [analizarStep_ok ev a (h a (by simp))]
    exact ih _ (fun x hx => h x (by simp [hx]))

theorem analizar_ok (items : List SnapItem) (h : ∀ x ∈ items, weatherOk x = true) :
    analizar_eventos_meteorologicos (some ⟨some items⟩) =
      .ok (loopPure eventosDefault items) := by
  unfold analizar_eventos_meteorologicos
  exact analizarLoop_ok items eventosDefault h

theorem loopPure_append (xs ys : List SnapItem) :
    ∀ ev, loopPure ev (xs ++ ys) = loopPure (loopPure ev xs) ys := by
  induction xs with
  | nil => intro ev; rfl
  | cons a rest ih =>
    intro ev
    show loopPure (stepPure ev a) (rest ++ ys) = loopPure (loopPure (stepPure ev a) rest) ys
    exact ih _

theorem analizarItem_lluvia_mono (ev : Eventos) (item : SnapItem) (wm wd : String)
    (h : ev.lluvia = true) : (analizarItem ev item wm wd).lluvia = true := by
  rw [analizarItem_eq]; simp [h]

theorem analizarItem_horas_lluvia_mem (ev : Eventos) (item : SnapItem) (wm wd τ : String)
    (h : τ ∈ ev.horas_lluvia) : τ ∈ (analizarItem ev item wm wd).horas_lluvia := by
  rw [analizarItem_eq]
  exact List.mem_append_left _ h

theorem analizarItem_intensidad_mono (ev : Eventos) (item : SnapItem) (wm wd : String) :
    ev.intensidad_lluvia_max ≤ (analizarItem ev item wm wd).intensidad_lluvia_max := by
  rw [analizarItem_eq]
  dsimp only
  split
  · split
    · exact le_ratMax_left _ _
    · exact le_rfl
  · exact le_rfl

theorem analizarItem_prob_lluvia_mono (ev : Eventos) (item : SnapItem) (wm wd : String) :
    ev.probabilidad_lluvia_max ≤ (analizarItem ev item wm wd).probabilidad_lluvia_max := by
  rw [analizarItem_eq]
  dsimp only
  split
  · split
    · exact le_ratMax_left _ _
    · exact le_rfl
  · exact le_rfl

theorem analizarItem_prob_nieve_mono (ev : Eventos) (item : SnapItem) (wm wd : String) :
    ev.probabilidad_nieve_max ≤ (analizarItem ev item wm wd).probabilidad_nieve_max := by
  rw [analizarItem_eq]
  dsimp only
  split
  · split
    · exact le_ratMax_left _ _
    · exact le_rfl
  · exact le_rfl

theorem analizarStep_shape (ev ev2 : Eventos) (a : SnapItem)
    (h : analizarStep ev a = .ok ev2) : ∃ wm wd, ev2 = analizarItem ev a wm wd := by
  unfold analizarStep at h
  rcases hw : weatherHead a with e | w <;> rw [hw] at h
  · cases h
  · injection h with h2
    exact ⟨_, _, h2.symm⟩

theorem analizarLoop_lluvia_mono (xs : List SnapItem) :
    ∀ ev ev2, analizarLoop ev xs = .ok ev2 → ev.lluvia = true → ev2.lluvia = true := by
  induction xs with
  | nil =>
    intro ev ev2 h hl
    unfold analizarLoop at h
    cases h
    exact hl
  | cons a rest ih =>
    intro ev ev2 h hl
    unfold analizarLoop at h
    rcases hs : analizarStep ev a with e | ev1 <;> rw [hs] at h
    · cases h
    · obtain ⟨wm, wd, rfl⟩ := analizarStep_shape ev ev1 a hs
      exact ih _ _ h (analizarItem_lluvia_mono ev a wm wd hl)

theorem analizarLoop_horas_lluvia_mem (xs : List SnapItem) :
    ∀ ev ev2 τ, analizarLoop ev xs = .ok ev2 → τ ∈ ev.horas_lluvia →
      τ ∈ ev2.horas_lluvia := by
  induction xs with
  | nil =>
    intro ev ev2 τ h hm
    unfold analizarLoop at h
    cases h
    exact hm
  | cons a rest ih =>
    intro ev ev2 τ h hm
    unfold analizarLoop at h
    rcases hs : analizarStep ev a with e | ev1 <;> rw [hs] at h
    · cases h
    · obtain ⟨wm, wd, rfl⟩ := analizarStep_shape ev ev1 a hs
      exact ih _ _ τ h (analizarItem_horas_lluvia_mem ev a wm wd τ hm)

theorem analizarLoop_intensidad_mono (xs : List SnapItem) :
    ∀ ev ev2, analizarLoop ev xs = .ok ev2 →
      ev.intensidad_lluvia_max ≤ ev2.intensidad_lluvia_max := by
  induction xs with
  | nil =>
    intro ev ev2 h
    unfold analizarLoop at h
    cases h
    exact le_rfl
  | cons a rest ih =>
    intro ev ev2 h
    unfold analizarLoop at h
    rcases hs : analizarStep ev a with e | ev1 <;> rw [hs] at h
    · cases h
    · obtain ⟨wm, wd, rfl⟩ := analizarStep_shape ev ev1 a hs
      exact le_trans (analizarItem_intensidad_mono ev a wm wd) (ih _ _ h)

theorem analizarLoop_prob_lluvia_mono (xs : List SnapItem) :
    ∀ ev ev2, analizarLoop ev xs = .ok ev2 →
      ev.probabilidad_lluvia_max ≤ ev2.probabilidad_lluvia_max := by
  induction xs with
  | nil =>
    intro ev ev2 h
    unfold analizarLoop at h
    cases h
    exact le_rfl
  | cons a rest ih =>
    intro ev ev2 h
    unfold analizarLoop at h
    rcases hs : analizarStep ev a with e | ev1 <;> rw [hs] at h
    · cases h
    · obtain ⟨wm, wd, rfl⟩ := analizarStep_shape ev ev1 a hs
      exact le_trans (analizarItem_prob_lluvia_mono ev a wm wd) (ih _ _ h)

theorem analizarLoop_prob_nieve_mono (xs : List SnapItem) :
    ∀ ev ev2, analizarLoop ev xs = .ok ev2 →
      ev.probabilidad_nieve_max ≤ ev2.probabilidad_nieve_max := by
  induction xs with
  | nil =>
    intro ev ev2 h
    unfold analizarLoop at h
    cases h
    exact le_rfl
  | cons a rest ih =>
    intro ev ev2 h
    unfold analizarLoop at h
    rcases hs : analizarStep ev a with e | ev1 <;> rw [hs] at h
    · cases h
    · obtain ⟨wm, wd, rfl⟩ := analizarStep_shape ev ev1 a hs
      exact le_trans (analizarItem_prob_nieve_mono ev a wm wd) (ih _ _ h)

theorem analizarLoop_append (xs ys : List SnapItem) :
    ∀ ev, analizarLoop ev (xs ++ ys) =
      match analizarLoop ev xs with
      | .error e => .error e
      | .ok e => analizarLoop e ys := by
  induction xs with
  | nil => intro ev; rfl
  | cons a rest ih =>
    intro ev
    have hl : analizarLoop ev ((a :: rest) ++ ys) =
        match analizarStep ev a with
        | .error e => (.error e : Except String Eventos)
        | .ok ev1 => analizarLoop ev1 (rest ++ ys) := rfl
    have hr : analizarLoop ev (a :: rest) =
        match analizarStep ev a with
        | .error e => (.error e : Except String Eventos)
        | .ok ev1 => analizarLoop ev1 rest := rfl
    rw [hl, hr]
    rcases hs : analizarStep ev a with e | ev1
    · rfl
    · exact ih ev1

/-- The consistency invariant the analyzer maintains on its `eventos` record:
each of the rain/storm/snow flags holds exactly when its timestamp list is
non-empty, and a positive maximum only occurs under its flag. -/
def evInv (ev : Eventos) : Prop :=
  (ev.lluvia = true ↔ ev.horas_lluvia ≠ []) ∧
  (ev.tormenta = true ↔ ev.horas_tormenta ≠ []) ∧
  (ev.nieve = true ↔ ev.horas_nieve ≠ []) ∧
  (0 < ev.probabilidad_lluvia_max → ev.lluvia = true) ∧
  (0 < ev.probabilidad_nieve_max → ev.nieve = true) ∧
  (0 < ev.intensidad_lluvia_max → ev.lluvia = true)

theorem condLluviaPop_imp (wm wd : String) (h : condLluviaPop wm wd = true) :
    condLluvia wm wd = true := by
  simp only [condLluviaPop, Bool.or_eq_true] at h
  simp only [condLluvia, Bool.or_eq_true]
  tauto

theorem evInv_default : evInv eventosDefault := by
  simp [evInv, eventosDefault]

theorem analizarItem_inv (ev : Eventos) (item : SnapItem) (wm wd : String)
    (h : evInv ev) : evInv (analizarItem ev item wm wd) := by
  obtain ⟨h1, h2, h3, h4, h5, h6⟩ := h
  rw [analizarItem_eq]
  unfold evInv
  dsimp only
  refine ⟨?_, ?_, ?_, ?_, ?_, ?_⟩
  · cases hcl : condLluvia wm wd
    · simp [h1]
    · simp
  · cases hct : condTormenta wm wd
    · simp [h2]
    · simp
  · cases hcn : condNieve wm wd
    · simp [h3]
    · simp
  · rcases hp : item.pop with _ | p
    · dsimp only
      intro hpos
      simp [h4 hpos]
    · dsimp only
      cases hclp : condLluviaPop wm wd
      · simp only [Bool.false_eq_true, if_false]
        intro hpos
        simp [h4 hpos]
      · have hcl := condLluviaPop_imp wm wd hclp
        simp [hcl]
  · rcases hp : item.pop with _ | p
    · dsimp only
      intro hpos
      simp [h5 hpos]
    · dsimp only
      cases hcn : condNieve wm wd
      · simp only [Bool.false_eq_true, if_false]
        intro hpos
        simp [h5 hpos]
      · simp [hcn]
  · cases hcl : condLluvia wm wd
    · simp only [Bool.false_eq_true, if_false]
      intro hpos
      simp [h6 hpos]
    · simp

theorem analizarLoop_inv (xs : List SnapItem) :
    ∀ ev ev2, analizarLoop ev xs = .ok ev2 → evInv ev → evInv ev2 := by
  induction xs with
  | nil =>
    intro ev ev2 h hi
    unfold analizarLoop at h
    cases h
    exact hi
  | cons a rest ih =>
    intro ev ev2 h hi
    unfold analizarLoop at h
    rcases hs : analizarStep ev a with e | ev1 <;> rw [hs] at h
    · cases h
    · obtain ⟨wm, wd, rfl⟩ := analizarStep_shape ev ev1 a hs
      exact ih _ _ h (analizarItem_inv ev a wm wd hi)

theorem wfSnap_wfTime (item : SnapItem) (h : wfSnap item = true) : wfTime item = true := by
  unfold wfSnap at h
  simp only [Bool.and_eq_true] at h
  exact h.1.1.1.1

theorem snapTime_ok (item : SnapItem) (h : wfTime item = true) :
    snapTime item = .ok (timeD item) := by
  unfold wfTime at h
  unfold snapTime timeD
  rcases hd : item.dt_txt with _ | s <;> rw [hd] at h
  · simp at h
  · simp only [Option.some_bind] at h ⊢
    rcases hp : strptimeDtTxt s with _ | t
    · rw [hp] at h
      simp at h
    · simp [hp]

theorem mkEntry_ok (item : SnapItem) (h : wfSnap item = true) :
    mkEntry item = .ok (entryD item) := by
  obtain ⟨dt, we, mt, mh, ws, pp, r3, s3⟩ := item
  unfold wfSnap at h
  simp only [Bool.and_eq_true] at h
  obtain ⟨⟨⟨⟨ht, htemp⟩, hw⟩, hhum⟩, hwind⟩ := h
  rcases we with _ | (_ | ⟨w, rest⟩)
  · simp at hw
  · simp at hw
  · simp only [Bool.and_eq_true] at hw
    obtain ⟨⟨hdesc, hicon⟩, hmain⟩ := hw
    obtain ⟨wmain, wdesc, wicon⟩ := w
    rcases dt with _ | s
    · simp [wfTime] at ht
    rcases mt with _ | temp
    · simp at htemp
    rcases mh with _ | hum
    · simp at hhum
    rcases ws with _ | wind
    · simp at hwind
    rcases wmain with _ | wmaiv
    · simp at hmain
    rcases wdesc with _ | wdesv
    · simp at hdesc
    rcases wicon with _ | wicov
    · simp at hicon
    rfl

theorem nearestLoop_acc (target : Int) :
    ∀ items : List SnapItem, (∀ x ∈ items, wfTime x = true) →
    ∀ b : SnapItem, nearestLoop target items (some (b, diffTo target b)) =
      .ok (some (match firstMinBy (diffTo target) items with
                 | none => (b, diffTo target b)
                 | some c =>
                   if diffTo target c < diffTo target b then (c, diffTo target c)
                   else (b, diffTo target b))) := by
  intro items
  induction items with
  | nil => intro _ b; rfl
  | cons a rest ih =>
    intro hwf b
    have hwfa : wfTime a = true := hwf a (by simp)
    have hwfr : ∀ x ∈ rest, wfTime x = true := fun x hx => hwf x (by simp [hx])
    have hstep : nearestLoop target (a :: rest) (some (b, diffTo target b)) =
        nearestLoop target rest
          (if diffTo target a < diffTo target b then some (a, diffTo target a)
           else some (b, diffTo target b)) := by
      have hs : snapTime a = .ok (timeD a) := snapTime_ok a hwfa
      simp only [nearestLoop, hs]
      rfl
    rw [hstep]
    have hfm : firstMinBy (diffTo target) (a :: rest) =
        match firstMinBy (diffTo target) rest with
        | none => some a
        | some c =>
          if diffTo target c < diffTo target a then some c else some a := rfl
    rw [hfm]
    by_cases hab : diffTo target a < diffTo target b
    · rw [if_pos hab, ih hwfr a]
      rcases hr : firstMinBy (diffTo target) rest with _ | c
      · simp [hab]
      · by_cases hca : diffTo target c < diffTo target a
        · simp [hca, Nat.lt_trans hca hab]
        · simp [hca, hab]
    · rw [if_neg hab, ih hwfr b]
      rcases hr : firstMinBy (diffTo target) rest with _ | c
      · simp [hab]
      · by_cases hca : diffTo target c < diffTo target a
        · simp [hca]
        · have hcb : ¬ diffTo target c < diffTo target b := by omega
          simp [hca, hab, hcb]

theorem nearestLoop_eq (target : Int) (items : List SnapItem)
    (hwf : ∀ x ∈ items, wfTime x = true) :
    nearestLoop target items none =
      .ok ((firstMinBy (diffTo target) items).map (fun c => (c, diffTo target c))) := by
  rcases items with _ | ⟨a, rest⟩
  · rfl
  · have hwfa : wfTime a = true := hwf a (by simp)
    have hwfr : ∀ x ∈ rest, wfTime x = true := fun x hx => hwf x (by simp [hx])
    have hstep : nearestLoop target (a :: rest) none =
        nearestLoop target rest (some (a, diffTo target a)) := by
      have hs : snapTime a = .ok (timeD a) := snapTime_ok a hwfa
      simp only [nearestLoop, hs]
      rfl
    rw [hstep, nearestLoop_acc target rest hwfr a]
    have hfm : firstMinBy (diffTo target) (a :: rest) =
        match firstMinBy (diffTo target) rest with
        | none => some a
        | some c =>
          if diffTo target c < diffTo target a then some c else some a := rfl
    rw [hfm]
    rcases hr : firstMinBy (diffTo target) rest with _ | c
    · rfl
    · by_cases hca : diffTo target c < diffTo target a <;> simp [hca]

theorem firstMinBy_mem (f : SnapItem → Nat) :
    ∀ (l : List SnapItem) c, firstMinBy f l = some c → c ∈ l := by
  intro l
  induction l with
  | nil => intro c h; cases h
  | cons a rest ih =>
    intro c h
    unfold firstMinBy at h
    rcases hr : firstMinBy f rest with _ | b <;> rw [hr] at h
    · cases h; simp
    · by_cases hba : f b < f a
      · simp only [hba, if_true] at h
        cases h
        exact List.mem_cons_of_mem a (ih _ hr)
      · simp only [hba, if_false] at h
        cases h
        simp

theorem firstMinBy_ne_nil (f : SnapItem → Nat) :
    ∀ l, firstMinBy f l = none → l = [] := by
  intro l
  rcases l with _ | ⟨a, rest⟩
  · intro _; rfl
  · intro h
    exfalso
    unfold firstMinBy at h
    rcases hr : firstMinBy f rest with _ | b <;> rw [hr] at h
    · cases h
    · by_cases hba : f b < f a <;> simp [hba] at h

theorem firstMinBy_spec (f : SnapItem → Nat) :
    ∀ l : List SnapItem, l ≠ [] →
      ∃ (j : ℕ) (c : SnapItem), l[j]? = some c ∧ firstMinBy f l = some c ∧
        (∀ (k : ℕ) (x : SnapItem), l[k]? = some x → f c ≤ f x) ∧
        (∀ (k : ℕ) (x : SnapItem), k < j → l[k]? = some x → f c < f x) := by
  intro l
  induction l with
  | nil => intro h; exact absurd rfl h
  | cons a rest ih =>
    intro _
    have hfm : firstMinBy f (a :: rest) =
        match firstMinBy f rest with
        | none => some a
        | some b => if f b < f a then some b else some a := rfl
    rcases hr : firstMinBy f rest with _ | c
    · have hrest : rest = [] := firstMinBy_ne_nil f rest hr
      subst hrest
      refine ⟨0, a, by simp, rfl, ?_, fun k x hk _ => absurd hk (Nat.not_lt_zero k)⟩
      intro k x hk
      rcases k with _ | k
      · rw [List.getElem?_cons_zero] at hk
        cases hk
        exact le_rfl
      · rw [List.getElem?_cons_succ] at hk
        simp at hk
    · have hrne : rest ≠ [] := by
        intro hr0
        subst hr0
        cases hr
      obtain ⟨j, c0, hj, hfm0, hmin, hfirst⟩ := ih hrne
      have hcc : c0 = c := by
        rw [hr] at hfm0
        exact (Option.some.inj hfm0).symm
      subst hcc
      by_cases hca : f c0 < f a
      · refine ⟨j + 1, c0, by simpa using hj, ?_, ?_, ?_⟩
        · rw [hfm, hr]
          simp [hca]
        · intro k x hk
          rcases k with _ | k
          · rw [List.getElem?_cons_zero] at hk
            cases hk
            exact hca.le
          · rw [List.getElem?_cons_succ] at hk
            exact hmin k x hk
        · intro k x hklt hk
          rcases k with _ | k
          · rw [List.getElem?_cons_zero] at hk
            cases hk
            exact hca
          · rw [List.getElem?_cons_succ] at hk
            exact hfirst k x (by omega) hk
      · refine ⟨0, a, by simp, ?_, ?_, fun k x hk _ => absurd hk (Nat.not_lt_zero k)⟩
        · rw [hfm, hr]
          simp [hca]
        · intro k x hk
          rcases k with _ | k
          · rw [List.getElem?_cons_zero] at hk
            cases hk
            exact le_rfl
          · rw [List.getElem?_cons_succ] at hk
            exact le_trans (Nat.le_of_not_lt hca) (hmin k x hk)

theorem pickNearest_eq (target : Int) (items : List SnapItem) (c : SnapItem)
    (h : firstMinBy (diffTo target) items = some c) :
    pickNearest target items = c := by
  unfold pickNearest
  rw [h]
  rfl

theorem horasLoop_formula (ahora : Int) (items : List SnapItem)
    (hwf : ∀ x ∈ items, wfSnap x = true) (hne : items ≠ []) :
    ∀ (horas : List Int) (acc : List (String × HorizonEntry)),
      horasLoop ahora items horas acc =
        .ok (acc ++ horas.map (fun h => (toString h ++ "h",
          entryD (pickNearest (ahora + h * 3600) items)))) := by
  have hwfT : ∀ x ∈ items, wfTime x = true :=
    fun x hx => wfSnap_wfTime x (hwf x hx)
  intro horas
  induction horas with
  | nil => intro acc; simp [horasLoop]
  | cons h rest ih =>
    intro acc
    obtain ⟨j, c, hj, hfm, _, _⟩ :=
      firstMinBy_spec (diffTo (ahora + h * 3600)) items hne
    have hc : c ∈ items := firstMinBy_mem _ items c hfm
    have hstep : horasLoop ahora items (h :: rest) acc =
        horasLoop ahora items rest (acc ++ [(toString h ++ "h", entryD c)]) := by
      conv_lhs => rw [horasLoop]
      rw [nearestLoop_eq _ items hwfT, hfm]
      dsimp only [Option.map]
      rw [mkEntry_ok c (hwf c hc)]
    rw [hstep, ih]
    rw [List.map_cons, pickNearest_eq _ items c hfm]
    simp

/-! Concrete example data used by witnesses and counterexamples (the rain
snapshot matches the worked example of the specification: description
"light rain", group "Rain", pop 0.8, rain-3h 1.2 mm). -/

def snapRainEx : SnapItem :=
  { dt_txt := some "2026-10-12 15:00:00"
    weather := some [{ main := some "Rain", description := some "light rain"
                       icon := some "10d" }]
    main_temp := some 20, main_humidity := some 50, wind_speed := some 5
    pop := some (8 / 10), rain_3h := some (12 / 10), snow_3h := none }

def snapRain2Ex : SnapItem :=
  { dt_txt := some "2026-10-12 18:00:00"
    weather := some [{ main := some "Rain", description := some "heavy rain"
                       icon := some "10d" }]
    main_temp := some 19, main_humidity := some 70, wind_speed := some 6
    pop := some (9 / 10), rain_3h := some 5, snow_3h := none }

def snapDrizzleEx : SnapItem :=
  { dt_txt := some "2026-10-12 18:00:00"
    weather := some [{ main := some "Drizzle", description := some "llovizna ligera"
                       icon := some "09d" }]
    main_temp := some 18, main_humidity := some 60, wind_speed := some 3
    pop := some (8 / 10), rain_3h := none, snow_3h := none }

def snapNoDtEx : SnapItem :=
  { dt_txt := none
    weather := some [{ main := some "Clear", description := some "cielo claro"
                       icon := some "01d" }]
    main_temp := some 25, main_humidity := some 40, wind_speed := some 2
    pop := none, rain_3h := none, snow_3h := none }

/-- The analyzer output on `[snapRainEx]`. -/
def evRainEx : Eventos :=
  { lluvia := true, tormenta := false, granizo := false, nieve := false
    probabilidad_lluvia_max := 80, probabilidad_nieve_max := 0
    intensidad_lluvia_max := 12 / 10
    horas_lluvia := ["2026-10-12 15:00:00"], horas_tormenta := [], horas_nieve := [] }

/-! The claims. -/

/-- C6: for every empty or absent forecast series (`None` argument, missing
`'list'` key, or empty snapshot list) the Event Analyzer returns an
EventSummary with all four flags false, both max-probabilities and the
max-intensity equal to 0, and all three timestamp sequences empty — never an
error. -/
theorem c6_analyzer_empty_series (fd : Option ForecastData)
    (h : fd = none ∨ (∃ f, fd = some f ∧ f.list = none) ∨
         (∃ f, fd = some f ∧ f.list = some [])) :
    analizar_eventos_meteorologicos fd =
      .ok { lluvia := false, tormenta := false, granizo := false, nieve := false
            probabilidad_lluvia_max := 0, probabilidad_nieve_max := 0
            intensidad_lluvia_max := 0
            horas_lluvia := [], horas_tormenta := [], horas_nieve := [] } := by
  rcases h with rfl | ⟨f, rfl, hl⟩ | ⟨f, rfl, hl⟩
  · rfl
  · unfold analizar_eventos_meteorologicos
    dsimp only
    rw [hl]
    rfl
  · unfold analizar_eventos_meteorologicos
    dsimp only
    rw [hl]
    rfl

/-- Witness for C6 at the concrete input `None`. -/
theorem c6_analyzer_empty_series_witness :
    ((none : Option ForecastData) = none ∨
      (∃ f, (none : Option ForecastData) = some f ∧ f.list = none) ∨
      (∃ f, (none : Option ForecastData) = some f ∧ f.list = some [])) ∧
    analizar_eventos_meteorologicos none =
      .ok { lluvia := false, tormenta := false, granizo := false, nieve := false
            probabilidad_lluvia_max := 0, probabilidad_nieve_max := 0
            intensidad_lluvia_max := 0
            horas_lluvia := [], horas_tormenta := [], horas_nieve := [] } :=
  ⟨Or.inl rfl, c6_analyzer_empty_series none (Or.inl rfl)⟩

/-- C7: for every forecast series containing at least one snapshot whose
condition-group is "Rain" (and whose snapshots all have well-formed weather
lists, so the analyzer completes), the analyzer result has the rain flag true
and that snapshot's timestamp appears in `horas_lluvia`. -/
theorem c7_rain_snapshot_sets_flag (items : List SnapItem) (x : SnapItem)
    (w : WeatherEntry) (wrest : List WeatherEntry) (τ : String)
    (hwf : ∀ y ∈ items, weatherOk y = true)
    (hx : x ∈ items) (hw : x.weather = some (w :: wrest))
    (hmain : w.main = some "Rain") (hdt : x.dt_txt = some τ) :
    ∃ ev, analizar_eventos_meteorologicos (some ⟨some items⟩) = .ok ev ∧
      ev.lluvia = true ∧ τ ∈ ev.horas_lluvia := by
  obtain ⟨l1, l2, rfl⟩ := List.append_of_mem hx
  have hwf1 : ∀ y ∈ l1, weatherOk y = true := fun y hy => hwf y (by simp [hy])
  have hwf2 : ∀ y ∈ l2, weatherOk y = true := fun y hy => hwf y (by simp [hy])
  have hwfx : weatherOk x = true := by
    unfold weatherOk
    rw [hw]
  have hwm : wmA x = "rain" := by
    unfold wmA wHeadA
    rw [hw, hmain]
    decide
  have hcl : condLluvia (wmA x) (wdA x) = true := by
    rw [hwm]
    unfold condLluvia
    have : strContains "rain" "rain" = true := by decide
    simp [this]
  have hlluvia : (stepPure (loopPure eventosDefault l1) x).lluvia = true := by
    unfold stepPure
    rw [analizarItem_eq]
    simp [hcl]
  have hmem : τ ∈ (stepPure (loopPure eventosDefault l1) x).horas_lluvia := by
    unfold stepPure
    rw [analizarItem_eq]
    rw [hdt]
    simp [hcl]
  unfold analizar_eventos_meteorologicos
  dsimp only
  rw [analizarLoop_append l1 (x :: l2) eventosDefault]
  rw [analizarLoop_ok l1 eventosDefault hwf1]
  dsimp only
  have hstep1 : analizarLoop (loopPure eventosDefault l1) (x :: l2) =
      match analizarStep (loopPure eventosDefault l1) x with
      | .error e => (.error e : Except String Eventos)
      | .ok e2 => analizarLoop e2 l2 := rfl
  rw [hstep1, analizarStep_ok _ x hwfx]
  dsimp only
  have hl2 := analizarLoop_ok l2 (stepPure (loopPure eventosDefault l1) x) hwf2
  refine ⟨_, hl2, ?_, ?_⟩
  · exact analizarLoop_lluvia_mono l2 _ _ hl2 hlluvia
  · exact analizarLoop_horas_lluvia_mem l2 _ _ τ hl2 hmem

/-- Witness for C7 on the one-snapshot rainy series. -/
theorem c7_rain_snapshot_sets_flag_witness :
    (∀ y ∈ [snapRainEx], weatherOk y = true) ∧
    (∃ ev, analizar_eventos_meteorologicos (some ⟨some [snapRainEx]⟩) = .ok ev ∧
      ev.lluvia = true ∧ "2026-10-12 15:00:00" ∈ ev.horas_lluvia) :=
  ⟨by decide,
   c7_rain_snapshot_sets_flag [snapRainEx] snapRainEx
     { main := some "Rain", description := some "light rain", icon := some "10d" }
     [] "2026-10-12 15:00:00" (by decide) (by simp) rfl rfl rfl⟩

/-- C8: appending a snapshot to a forecast series never decreases the
analyzer's `intensidad_lluvia_max`. -/
theorem c8_intensity_monotone_append (l : List SnapItem) (s : SnapItem)
    (ev1 ev2 : Eventos)
    (h1 : analizar_eventos_meteorologicos (some ⟨some l⟩) = .ok ev1)
    (h2 : analizar_eventos_meteorologicos (some ⟨some (l ++ [s])⟩) = .ok ev2) :
    ev1.intensidad_lluvia_max ≤ ev2.intensidad_lluvia_max := by
  unfold analizar_eventos_meteorologicos at h1 h2
  dsimp only at h1 h2
  rw [analizarLoop_append l [s] eventosDefault, h1] at h2
  exact analizarLoop_intensidad_mono [s] ev1 ev2 h2

/-- Witness for C8: appending a heavier-rain snapshot to the one-snapshot
rainy series. -/
theorem c8_intensity_monotone_append_witness :
    analizar_eventos_meteorologicos (some ⟨some [snapRainEx]⟩) = .ok evRainEx ∧
    analizar_eventos_meteorologicos (some ⟨some ([snapRainEx] ++ [snapRain2Ex])⟩) =
      .ok { lluvia := true, tormenta := false, granizo := false, nieve := false
            probabilidad_lluvia_max := 90, probabilidad_nieve_max := 0
            intensidad_lluvia_max := 5
            horas_lluvia := ["2026-10-12 15:00:00", "2026-10-12 18:00:00"]
            horas_tormenta := [], horas_nieve := [] } ∧
    evRainEx.intensidad_lluvia_max ≤ (5 : ℚ) :=
  ⟨by with_unfolding_all decide, by with_unfolding_all decide,
   c8_intensity_monotone_append [snapRainEx] snapRain2Ex evRainEx
     { lluvia := true, tormenta := false, granizo := false, nieve := false
       probabilidad_lluvia_max := 90, probabilidad_nieve_max := 0
       intensidad_lluvia_max := 5
       horas_lluvia := ["2026-10-12 15:00:00", "2026-10-12 18:00:00"]
       horas_tormenta := [], horas_nieve := [] }
     (by with_unfolding_all decide) (by with_unfolding_all decide)⟩

/-- C9: every successful analyzer result satisfies the EventSummary
consistency invariant — each of the rain/storm/snow flags holds exactly when
its timestamp sequence is non-empty, and a positive max-probability or
max-intensity only occurs when the corresponding flag is true. -/
theorem c9_eventSummary_invariant (fd : Option ForecastData) (ev : Eventos)
    (h : analizar_eventos_meteorologicos fd = .ok ev) :
    (ev.lluvia = true ↔ ev.horas_lluvia ≠ []) ∧
    (ev.tormenta = true ↔ ev.horas_tormenta ≠ []) ∧
    (ev.nieve = true ↔ ev.horas_nieve ≠ []) ∧
    (0 < ev.probabilidad_lluvia_max → ev.lluvia = true) ∧
    (0 < ev.probabilidad_nieve_max → ev.nieve = true) ∧
    (0 < ev.intensidad_lluvia_max → ev.lluvia = true) := by
  unfold analizar_eventos_meteorologicos at h
  rcases fd with _ | f
  · cases h
    exact evInv_default
  · dsimp only at h
    rcases hl : f.list with _ | items <;> rw [hl] at h
    · cases h
      exact evInv_default
    · exact analizarLoop_inv items eventosDefault ev h evInv_default

/-- Witness for C9 on the one-snapshot rainy series. -/
theorem c9_eventSummary_invariant_witness :
    (analizar_eventos_meteorologicos (some ⟨some [snapRainEx]⟩) = .ok evRainEx) ∧
    ((evRainEx.lluvia = true ↔ evRainEx.horas_lluvia ≠ []) ∧
     (evRainEx.tormenta = true ↔ evRainEx.horas_tormenta ≠ []) ∧
     (evRainEx.nieve = true ↔ evRainEx.horas_nieve ≠ []) ∧
     (0 < evRainEx.probabilidad_lluvia_max → evRainEx.lluvia = true) ∧
     (0 < evRainEx.probabilidad_nieve_max → evRainEx.nieve = true) ∧
     (0 < evRainEx.intensidad_lluvia_max → evRainEx.lluvia = true)) :=
  ⟨by with_unfolding_all decide,
   c9_eventSummary_invariant (some ⟨some [snapRainEx]⟩) evRainEx
     (by with_unfolding_all decide)⟩

/-- Snapshot whose `weather` key is present but an empty list — the one input
shape on which the analyzer itself raises (IndexError on `[0]`). -/
def snapEmptyWeatherEx : SnapItem :=
  { dt_txt := some "2026-10-12 21:00:00", weather := some []
    main_temp := some 22, main_humidity := some 45, wind_speed := some 4
    pop := none, rain_3h := none, snow_3h := none }

/-- The horizon-selector loop over an empty snapshot list leaves the
accumulator untouched: no offset ever finds a nearest snapshot. -/
theorem horasLoop_nil (ahora : Int) :
    ∀ (horas : List Int) (acc : List (String × HorizonEntry)),
      horasLoop ahora [] horas acc = .ok acc := by
  intro horas
  induction horas with
  | nil => intro acc; rfl
  | cons h rest ih => intro acc; exact ih acc

/-- C3 counterexample: `snapDrizzleEx` (group "Drizzle", description without
"lluvia") is classified as rain — the flag is set and its hour recorded — and
carries pop = 0.8, yet `probabilidad_lluvia_max` stays 0: the
probability-of-precipitation update tests only "rain"/"lluvia" and omits the
"drizzle" disjunct of the rain classification. -/
theorem c3_drizzle_pop_not_counted_cex :
    snapDrizzleEx.pop = some (8 / 10) ∧
    analizar_eventos_meteorologicos (some ⟨some [snapDrizzleEx]⟩) =
      .ok { lluvia := true, tormenta := false, granizo := false, nieve := false
            probabilidad_lluvia_max := 0, probabilidad_nieve_max := 0
            intensidad_lluvia_max := 0
            horas_lluvia := ["2026-10-12 18:00:00"], horas_tormenta := []
            horas_nieve := [] } :=
  ⟨rfl, by with_unfolding_all decide⟩

/-- C3 (amended): for a well-formed series, a snapshot carrying a pop value
updates rain-max-probability whenever its group contains "rain" or its
description contains "lluvia" (`condLluviaPop` — the narrower test that omits
the "drizzle" disjunct of the rain classification), and updates
snow-max-probability whenever it is classified as snow; a snapshot matching
both updates both maxima, with no mutual exclusion. -/
theorem c3_pop_updates_maxima (items : List SnapItem) (x : SnapItem) (p : ℚ)
    (ev : Eventos)
    (hwf : ∀ y ∈ items, weatherOk y = true) (hx : x ∈ items)
    (hp : x.pop = some p)
    (h : analizar_eventos_meteorologicos (some ⟨some items⟩) = .ok ev) :
    (condLluviaPop (wmA x) (wdA x) = true →
      p * 100 ≤ ev.probabilidad_lluvia_max) ∧
    (condNieve (wmA x) (wdA x) = true →
      p * 100 ≤ ev.probabilidad_nieve_max) := by
  obtain ⟨l1, l2, rfl⟩ := List.append_of_mem hx
  have hwf1 : ∀ y ∈ l1, weatherOk y = true := fun y hy => hwf y (by simp [hy])
  have hwf2 : ∀ y ∈ l2, weatherOk y = true := fun y hy => hwf y (by simp [hy])
  have hwfx : weatherOk x = true := hwf x (by simp)
  unfold analizar_eventos_meteorologicos at h
  dsimp only at h
  rw [analizarLoop_append l1 (x :: l2) eventosDefault,
      analizarLoop_ok l1 eventosDefault hwf1] at h
  dsimp only at h
  have hstep1 : analizarLoop (loopPure eventosDefault l1) (x :: l2) =
      match analizarStep (loopPure eventosDefault l1) x with
      | .error e => (.error e : Except String Eventos)
      | .ok e2 => analizarLoop e2 l2 := rfl
  rw [hstep1, analizarStep_ok _ x hwfx] at h
  dsimp only at h
  constructor
  · intro hclp
    have hbase : p * 100 ≤
        (stepPure (loopPure eventosDefault l1) x).probabilidad_lluvia_max := by
      unfold stepPure
      rw [analizarItem_eq]
      dsimp only
      rw [hp]
      dsimp only
      rw [if_pos hclp]
      exact le_ratMax_right _ _
    exact le_trans hbase (analizarLoop_prob_lluvia_mono l2 _ _ h)
  · intro hcn
    have hbase : p * 100 ≤
        (stepPure (loopPure eventosDefault l1) x).probabilidad_nieve_max := by
      unfold stepPure
      rw [analizarItem_eq]
      dsimp only
      rw [hp]
      dsimp only
      rw [if_pos hcn]
      exact le_ratMax_right _ _
    exact le_trans hbase (analizarLoop_prob_nieve_mono l2 _ _ h)

/-- Witness for the amended C3 at the rainy snapshot (pop 0.8 forces a
rain-max-probability of at least 80). -/
theorem c3_pop_updates_maxima_witness :
    (∀ y ∈ [snapRainEx], weatherOk y = true) ∧
    snapRainEx.pop = some (8 / 10) ∧
    ((condLluviaPop (wmA snapRainEx) (wdA snapRainEx) = true →
        (8 / 10 : ℚ) * 100 ≤ evRainEx.probabilidad_lluvia_max) ∧
     (condNieve (wmA snapRainEx) (wdA snapRainEx) = true →
        (8 / 10 : ℚ) * 100 ≤ evRainEx.probabilidad_nieve_max)) :=
  ⟨by decide, rfl,
   c3_pop_updates_maxima [snapRainEx] snapRainEx (8 / 10) evRainEx
     (by decide) (by simp) rfl (by with_unfolding_all decide)⟩

/-- C2 counterexample: the Horizon Selector raises on a snapshot that lacks
`dt_txt` (a KeyError in the source, an `Except.error` here), and the Event
Analyzer raises on a snapshot whose `weather` key holds an empty list — the
two functions do not degrade to empty/false defaults on every malformed
input. -/
theorem c2_selector_raises_cex :
    obtener_pronosticos_por_horas (some ⟨some [snapNoDtEx]⟩) 0
        [6, 12, 18, 24, 36, 48] = .error "KeyError: dt_txt" ∧
    analizar_eventos_meteorologicos (some ⟨some [snapEmptyWeatherEx]⟩) =
      .error "IndexError: weather list index out of range" :=
  ⟨by with_unfolding_all rfl, by with_unfolding_all rfl⟩

/-- C2 (amended): the Event Analyzer never raises provided every snapshot's
`weather` list, when present, is non-empty; both functions return their
empty/default results on absent or listless input; and the Horizon Selector
never raises provided every snapshot has a parseable `dt_txt` and the fields
it reads with direct subscripts. -/
theorem c2_no_raise_on_wf :
    (∀ fd : Option ForecastData,
      (∀ f items, fd = some f → f.list = some items →
        ∀ x ∈ items, weatherOk x = true) →
      ∃ ev, analizar_eventos_meteorologicos fd = .ok ev) ∧
    (∀ (ahora : Int) (horas : List Int),
      obtener_pronosticos_por_horas none ahora horas = .ok [] ∧
      ∀ f : ForecastData, f.list = none →
        obtener_pronosticos_por_horas (some f) ahora horas = .ok []) ∧
    (∀ (items : List SnapItem) (ahora : Int) (horas : List Int),
      (∀ x ∈ items, wfSnap x = true) →
      ∃ ps, obtener_pronosticos_por_horas (some ⟨some items⟩) ahora horas =
        .ok ps) := by
  refine ⟨?_, ?_, ?_⟩
  · intro fd hwf
    rcases fd with _ | f
    · exact ⟨eventosDefault, rfl⟩
    · obtain ⟨fl⟩ := f
      rcases fl with _ | items
      · exact ⟨eventosDefault, rfl⟩
      · exact ⟨loopPure eventosDefault items,
          analizarLoop_ok items eventosDefault (hwf ⟨some items⟩ items rfl rfl)⟩
  · intro ahora horas
    refine ⟨rfl, fun f hf => ?_⟩
    unfold obtener_pronosticos_por_horas
    dsimp only
    rw [hf]
  · intro items ahora horas hwf
    rcases items with _ | ⟨a, rest⟩
    · exact ⟨[], horasLoop_nil ahora horas []⟩
    · exact ⟨_, horasLoop_formula ahora (a :: rest) hwf (by simp) horas []⟩

/-- Witness for the amended C2 at the one-snapshot rainy series. -/
theorem c2_no_raise_on_wf_witness :
    (∃ ev, analizar_eventos_meteorologicos (some ⟨some [snapRainEx]⟩) = .ok ev) ∧
    (∃ ps, obtener_pronosticos_por_horas (some ⟨some [snapRainEx]⟩) 0 [6, 12] =
      .ok ps) :=
  ⟨c2_no_raise_on_wf.1 (some ⟨some [snapRainEx]⟩)
     (fun f items hf hl => by cases hf; cases hl; decide),
   c2_no_raise_on_wf.2.2 [snapRainEx] 0 [6, 12] (by decide)⟩

theorem reintentos_timeout_exhausts (α : Type) (o : Nat → FetchOutcome α)
    (c : String) (h : ∀ i, i < 3 → o i = .timeout) :
    reintentosLoop o c 3 0 3 = ⟨none, some "Timeout en la solicitud", 3⟩ := by
  have h0 := h 0 (by omega)
  have h1 := h 1 (by omega)
  have h2 := h 2 (by omega)
  simp [reintentosLoop, h0, h1, h2]

theorem reintentos_status_exhausts (α : Type) (o : Nat → FetchOutcome α)
    (c : String) (code : Nat) (h : ∀ i, i < 3 → o i = .status code)
    (h401 : code ≠ 401) (h404 : code ≠ 404) (h429 : code ≠ 429) :
    reintentosLoop o c 3 0 3 = ⟨none, some ("Error " ++ toString code), 3⟩ := by
  have h0 := h 0 (by omega)
  have h1 := h 1 (by omega)
  have h2 := h 2 (by omega)
  simp [reintentosLoop, h0, h1, h2, h401, h404, h429]

theorem reintentos_connError_immediate (α : Type) (o : Nat → FetchOutcome α)
    (c : String) (msg : String) (h : o 0 = .connError msg) :
    reintentosLoop o c 3 0 3 = ⟨none, some ("Error de conexión: " ++ msg), 1⟩ := by
  simp [reintentosLoop, h]

theorem reintentos_401_immediate (α : Type) (o : Nat → FetchOutcome α)
    (c : String) (h : o 0 = .status 401) :
    reintentosLoop o c 3 0 3 = ⟨none, some "API Key inválida", 1⟩ := by
  simp [reintentosLoop, h]

theorem reintentos_404_immediate (α : Type) (o : Nat → FetchOutcome α)
    (c : String) (h : o 0 = .status 404) :
    reintentosLoop o c 3 0 3 =
      ⟨none, some ("Ciudad " ++ c ++ " no encontrada"), 1⟩ := by
  simp [reintentosLoop, h]

theorem reintentos_429_immediate (α : Type) (o : Nat → FetchOutcome α)
    (c : String) (h : o 0 = .status 429) :
    reintentosLoop o c 3 0 3 =
      ⟨none, some "Límite de solicitudes excedido", 1⟩ := by
  simp [reintentosLoop, h]

/-- C4 counterexample: a connection error on the first attempt returns
immediately, after a single attempt, with the connection-error message — it is
not retried up to the 3-attempt budget as the claim states (the source's
`except RequestException` arm returns instead of continuing). -/
theorem c4_connError_no_retry_cex :
    obtener_clima (fun _ => FetchOutcome.connError "connection refused")
        "Lima, PE" 3 =
      ⟨none, some ("Error de conexión: " ++ "connection refused"), 1⟩ ∧
    obtener_pronostico (fun _ => FetchOutcome.connError "connection refused")
        "Lima, PE" 3 =
      ⟨none, some ("Error de conexión: " ++ "connection refused"), 1⟩ :=
  ⟨rfl, rfl⟩

/-- C4 (amended): for both weather-client calls, Timeout and an unrecognized
non-200 status are retried up to 3 attempts total with a typed error after the
budget is exhausted, while a ConnectionError (any RequestException) returns
immediately after one attempt, and 401/404/429 short-circuit immediately
without retry. -/
theorem c4_retry_policy :
    (∀ (o : Nat → FetchOutcome CurrentData) (c : String),
      ((∀ i, i < 3 → o i = .timeout) →
        obtener_clima o c 3 = ⟨none, some "Timeout en la solicitud", 3⟩) ∧
      (∀ code, (∀ i, i < 3 → o i = .status code) →
        code ≠ 401 → code ≠ 404 → code ≠ 429 →
        obtener_clima o c 3 = ⟨none, some ("Error " ++ toString code), 3⟩) ∧
      (∀ msg, o 0 = .connError msg →
        obtener_clima o c 3 = ⟨none, some ("Error de conexión: " ++ msg), 1⟩) ∧
      (o 0 = .status 401 →
        obtener_clima o c 3 = ⟨none, some "API Key inválida", 1⟩) ∧
      (o 0 = .status 404 →
        obtener_clima o c 3 = ⟨none, some ("Ciudad " ++ c ++ " no encontrada"), 1⟩) ∧
      (o 0 = .status 429 →
        obtener_clima o c 3 = ⟨none, some "Límite de solicitudes excedido", 1⟩)) ∧
    (∀ (o : Nat → FetchOutcome ForecastData) (c : String),
      ((∀ i, i < 3 → o i = .timeout) →
        obtener_pronostico o c 3 = ⟨none, some "Timeout en la solicitud", 3⟩) ∧
      (∀ code, (∀ i, i < 3 → o i = .status code) →
        code ≠ 401 → code ≠ 404 → code ≠ 429 →
        obtener_pronostico o c 3 = ⟨none, some ("Error " ++ toString code), 3⟩) ∧
      (∀ msg, o 0 = .connError msg →
        obtener_pronostico o c 3 =
          ⟨none, some ("Error de conexión: " ++ msg), 1⟩) ∧
      (o 0 = .status 401 →
        obtener_pronostico o c 3 = ⟨none, some "API Key inválida", 1⟩) ∧
      (o 0 = .status 404 →
        obtener_pronostico o c 3 =
          ⟨none, some ("Ciudad " ++ c ++ " no encontrada"), 1⟩) ∧
      (o 0 = .status 429 →
        obtener_pronostico o c 3 =
          ⟨none, some "Límite de solicitudes excedido", 1⟩)) :=
  ⟨fun o c =>
    ⟨fun h => reintentos_timeout_exhausts CurrentData o c h,
     fun code h h1 h2 h3 => reintentos_status_exhausts CurrentData o c code h h1 h2 h3,
     fun msg h => reintentos_connError_immediate CurrentData o c msg h,
     fun h => reintentos_401_immediate CurrentData o c h,
     fun h => reintentos_404_immediate CurrentData o c h,
     fun h => reintentos_429_immediate CurrentData o c h⟩,
   fun o c =>
    ⟨fun h => reintentos_timeout_exhausts ForecastData o c h,
     fun code h h1 h2 h3 => reintentos_status_exhausts ForecastData o c code h h1 h2 h3,
     fun msg h => reintentos_connError_immediate ForecastData o c msg h,
     fun h => reintentos_401_immediate ForecastData o c h,
     fun h => reintentos_404_immediate ForecastData o c h,
     fun h => reintentos_429_immediate ForecastData o c h⟩⟩

/-- Witness for the amended C4 at concrete oracles: an always-timing-out
oracle exhausts 3 attempts, an always-500 oracle exhausts 3 attempts, and a
404 on the first attempt short-circuits after 1. -/
theorem c4_retry_policy_witness :
    obtener_clima (fun _ => FetchOutcome.timeout) "Lima, PE" 3 =
      ⟨none, some "Timeout en la solicitud", 3⟩ ∧
    obtener_clima (fun _ => FetchOutcome.status 500) "Lima, PE" 3 =
      ⟨none, some ("Error " ++ toString 500), 3⟩ ∧
    obtener_clima (fun _ => FetchOutcome.status 404) "Lima, PE" 3 =
      ⟨none, some ("Ciudad " ++ "Lima, PE" ++ " no encontrada"), 1⟩ :=
  ⟨(c4_retry_policy.1 (fun _ => .timeout) "Lima, PE").1 (fun _ _ => rfl),
   (c4_retry_policy.1 (fun _ => .status 500) "Lima, PE").2.1 500 (fun _ _ => rfl)
     (by decide) (by decide) (by decide),
   (c4_retry_policy.1 (fun _ => .status 404) "Lima, PE").2.2.2.2.1 rfl⟩

/-- C5: for a well-formed non-empty series the Horizon Selector returns, for
every requested hour-offset, the entry built from the snapshot whose parsed
timestamp has the globally minimum absolute difference (in seconds) to
`now + offset`, ties resolved in favor of the first-encountered snapshot in
series order (`pickNearest`, characterised by the second conjunct as the
first global argmin); and for an empty or absent series it returns the empty
mapping rather than an error. -/
theorem c5_horizon_nearest (items : List SnapItem) (ahora : Int)
    (horas : List Int) (hwf : ∀ x ∈ items, wfSnap x = true)
    (hne : items ≠ []) :
    (obtener_pronosticos_por_horas (some ⟨some items⟩) ahora horas =
      .ok (horas.map (fun h => (toString h ++ "h",
        entryD (pickNearest (ahora + h * 3600) items))))) ∧
    (∀ target : Int, ∃ (j : ℕ) (it : SnapItem), items[j]? = some it ∧
      pickNearest target items = it ∧
      (∀ (k : ℕ) (x : SnapItem), items[k]? = some x →
        diffTo target it ≤ diffTo target x) ∧
      (∀ (k : ℕ) (x : SnapItem), k < j → items[k]? = some x →
        diffTo target it < diffTo target x)) ∧
    (∀ fd : Option ForecastData,
      fd = none ∨ (∃ f, fd = some f ∧ (f.list = none ∨ f.list = some [])) →
      obtener_pronosticos_por_horas fd ahora horas = .ok []) := by
  refine ⟨?_, ?_, ?_⟩
  · unfold obtener_pronosticos_por_horas
    dsimp only
    rw [horasLoop_formula ahora items hwf hne horas []]
    simp
  · intro target
    obtain ⟨j, c, hj, hfm, hmin, hfirst⟩ := firstMinBy_spec (diffTo target) items hne
    exact ⟨j, c, hj, pickNearest_eq target items c hfm, hmin, hfirst⟩
  · intro fd hfd
    rcases hfd with rfl | ⟨f, rfl, hl | hl⟩
    · rfl
    · unfold obtener_pronosticos_por_horas
      dsimp only
      rw [hl]
    · unfold obtener_pronosticos_por_horas
      dsimp only
      rw [hl]
      exact horasLoop_nil ahora horas []

/-- Witness for C5 at the one-snapshot rainy series and offsets 6 and 12. -/
theorem c5_horizon_nearest_witness :
    (∀ x ∈ [snapRainEx], wfSnap x = true) ∧ [snapRainEx] ≠ [] ∧
    ((obtener_pronosticos_por_horas (some ⟨some [snapRainEx]⟩) 0 [6, 12] =
      .ok ([6, 12].map (fun h => (toString h ++ "h",
        entryD (pickNearest (0 + h * 3600) [snapRainEx]))))) ∧
    (∀ target : Int, ∃ (j : ℕ) (it : SnapItem), [snapRainEx][j]? = some it ∧
      pickNearest target [snapRainEx] = it ∧
      (∀ (k : ℕ) (x : SnapItem), [snapRainEx][k]? = some x →
        diffTo target it ≤ diffTo target x) ∧
      (∀ (k : ℕ) (x : SnapItem), k < j → [snapRainEx][k]? = some x →
        diffTo target it < diffTo target x)) ∧
    (∀ fd : Option ForecastData,
      fd = none ∨ (∃ f, fd = some f ∧ (f.list = none ∨ f.list = some [])) →
      obtener_pronosticos_por_horas fd 0 [6, 12] = .ok [])) :=
  ⟨by decide, by decide, c5_horizon_nearest [snapRainEx] 0 [6, 12] (by decide) (by decide)⟩

/-- C10: for a well-formed non-empty snapshot list, the Horizon Selector's
result for the default offsets carries exactly the keys
"6h", "12h", "18h", "24h", "36h", "48h", in order — no offset is absent. -/
theorem c10_all_offsets_present (items : List SnapItem) (ahora : Int)
    (hwf : ∀ x ∈ items, wfSnap x = true) (hne : items ≠ []) :
    (obtener_pronosticos_por_horas (some ⟨some items⟩) ahora
        [6, 12, 18, 24, 36, 48]).map (fun ps => ps.map Prod.fst) =
      .ok ["6h", "12h", "18h", "24h", "36h", "48h"] := by
  unfold obtener_pronosticos_por_horas
  dsimp only
  rw [horasLoop_formula ahora items hwf hne [6, 12, 18, 24, 36, 48] []]
  simp [Except.map]
  refine ⟨?_, ?_, ?_, ?_, ?_, ?_⟩ <;> decide

/-- Witness for C10 at the one-snapshot rainy series. -/
theorem c10_all_offsets_present_witness :
    (∀ x ∈ [snapRainEx], wfSnap x = true) ∧ [snapRainEx] ≠ [] ∧
    (obtener_pronosticos_por_horas (some ⟨some [snapRainEx]⟩) 0
        [6, 12, 18, 24, 36, 48]).map (fun ps => ps.map Prod.fst) =
      .ok ["6h", "12h", "18h", "24h", "36h", "48h"] :=
  ⟨by decide, by decide, c10_all_offsets_present [snapRainEx] 0 (by decide) (by decide)⟩

/-- C1 (the code at the failing input): with city list ["A", "B"], A's
current-conditions fetch timing out, B succeeding, and B's forecast rainy, the
cycle emits only B's record — exclusion of the failed city and input order
hold — but pairs it with the all-false defaults and an empty horizon map:
`forecast_data_list` is indexed by city-list position while `weather_data` is
indexed by success position, so B's own forecast (whose analysis is the rainy
`evRainEx`, distinct from the defaults) is not the summary paired with B. -/
theorem c1_misaligned_pairing :
    cityRecords ["A", "B"]
        (fun c _ => if c = "B" then .ok ⟨"B"⟩ else .timeout)
        (fun _ _ => .ok ⟨some [snapRainEx]⟩) 0 =
      .ok [(⟨"B"⟩, eventosDefault, [])] ∧
    analizar_eventos_meteorologicos (some ⟨some [snapRainEx]⟩) = .ok evRainEx ∧
    evRainEx.lluvia = true ∧ evRainEx ≠ eventosDefault :=
  ⟨by with_unfolding_all decide, by with_unfolding_all decide, rfl, by decide⟩

end App
